import Mathlib

/-
Verification development for the WOW_Flutter_Meter repository
(flutter_meter.c + filters.c).

Modelling conventions:
* C `double` arithmetic is embedded as exact rational arithmetic (ℚ);
  each decimal literal of the source is written as the exact fraction it
  denotes (e.g. 0.95 becomes 95 / 100).
* C `int` / `short` are embedded as ℤ, with 16-bit wrap-around applied
  exactly where the source converts an `int` sample to `short`.
* Conversion of a `double` to `int` (C truncation toward zero) is `truncQ`.
* The module-scoped mutable variables of flutter_meter.c and filters.c are
  collected in one record `FMState`; the `static short previous_sample_raw`
  local to `process_samples` is part of that record as well, since it
  persists across calls.
* The single call to the C library function `sqrt` (at the 1-second
  boundary) is modelled by an explicit function parameter `sqrtFn`;
  no claim depends on the value sqrt returns, only on where its result
  is stored.
-/

set_option maxRecDepth 10000

/-- Truncation of a rational toward zero, the semantics of a C
`double`-to-`int` conversion. -/
def truncQ (q : ℚ) : ℤ :=
  if 0 ≤ q then q.floor else q.ceil

/-- Conversion of an `int` sample to `short` (two's-complement 16-bit
wrap-around), as in `short sample = samples[i];`. -/
def toShort (x : ℤ) : ℤ :=
  (x + 32768) % 65536 - 32768

/-- The 2nd-order bandpass isolator of filters.c (`process_2nd_order`).
The buffer is the 4-element `buf2nd_order`; the function returns the
buffer after the shift-and-write discipline together with the output
value. -/
def process_2nd_order (buf : List ℚ) (val : ℚ) : List ℚ × ℚ :=
  let tmp := buf.getD 0 0
  let o1 := buf.getD 1 0
  let o2 := buf.getD 2 0
  let o3 := buf.getD 3 0
  let iir1 := val * (1207405190260069 / 1000000000000000000 : ℚ) - (9483625336008361 / 10000000000000000 : ℚ) * tmp
      - ((-(173410899821474 / 100000000000000 : ℚ) : ℚ) * o1)
  let fir1 := tmp + (-o1 - o1) + iir1
  let iir2 := fir1 - (9533938855978508 / 10000000000000000 : ℚ) * o2 - ((-(1781298800713404 / 1000000000000000 : ℚ) : ℚ) * o3)
  let fir2 := o2 + (o3 + o3) + iir2
  ([o1, iir1, o3, iir2], fir2)

/-- The DIN weighting filter of filters.c (`process_DIN`), an 8-element
buffer and four biquad sections. -/
def process_DIN (buf : List ℚ) (val : ℚ) : List ℚ × ℚ :=
  let tmp := buf.getD 0 0
  let d1 := buf.getD 1 0
  let d2 := buf.getD 2 0
  let d3 := buf.getD 3 0
  let d4 := buf.getD 4 0
  let d5 := buf.getD 5 0
  let d6 := buf.getD 6 0
  let d7 := buf.getD 7 0
  let iir1 := val * (9886712475608222 / 10000000000000000000000 : ℚ) - (9718381574433894 / 10000000000000000 : ℚ) * tmp
      - ((-(1971551266567659 / 1000000000000000 : ℚ) : ℚ) * d1)
  let fir1 := tmp + (-d1 - d1) + iir1
  let iir2 := fir1 - (9982440100378892 / 10000000000000000 : ℚ) * d2 - ((-(1998242909436813 / 1000000000000000 : ℚ) : ℚ) * d3)
  let fir2 := d2 + (d3 + d3) + iir2
  let iir3 := fir2 - (6434545131997782 / 10000000000000000 : ℚ) * d4 - ((-(1591050960239724 / 1000000000000000 : ℚ) : ℚ) * d5)
  let fir3 := d4 + (d5 + d5) + iir3
  let iir4 := fir3 - (9997284329050403 / 10000000000000000 : ℚ) * d6 - ((-(1999728408318806 / 1000000000000000 : ℚ) : ℚ) * d7)
  let fir4 := d6 + (-d7 - d7) + iir4
  ([d1, iir1, d3, iir2, d5, iir3, d7, iir4], fir4)

/-- The unweighted (0.3-200 Hz Bessel bandpass) filter of filters.c
(`process_unweighted`). -/
def process_unweighted (buf : List ℚ) (val : ℚ) : List ℚ × ℚ :=
  let tmp := buf.getD 0 0
  let d1 := buf.getD 1 0
  let d2 := buf.getD 2 0
  let d3 := buf.getD 3 0
  let d4 := buf.getD 4 0
  let d5 := buf.getD 5 0
  let d6 := buf.getD 6 0
  let d7 := buf.getD 7 0
  let iir1 := val * (3306520826380572 / 10000000000000000000 : ℚ) - (6753463035083248 / 10000000000000000 : ℚ) * tmp
      - ((-(1591483463373453 / 1000000000000000 : ℚ) : ℚ) * d1)
  let fir1 := tmp + (-d1 - d1) + iir1
  let iir2 := fir1 - (9997682212465883 / 10000000000000000 : ℚ) * d2 - ((-(1999768186333123 / 1000000000000000 : ℚ) : ℚ) * d3)
  let fir2 := d2 + (-d3 - d3) + iir2
  let iir3 := fir2 - (5771462662841257 / 10000000000000000 : ℚ) * d4 - ((-(1514102287557188 / 1000000000000000 : ℚ) : ℚ) * d5)
  let fir3 := d4 + (d5 + d5) + iir3
  let iir4 := fir3 - (9995984565721876 / 10000000000000000 : ℚ) * d6 - ((-(1999598412629212 / 1000000000000000 : ℚ) : ℚ) * d7)
  let fir4 := d6 + (d7 + d7) + iir4
  ([d1, iir1, d3, iir2, d5, iir3, d7, iir4], fir4)

/-- The wow (0.3-6 Hz Bessel bandpass) weighting filter of filters.c
(`process_wow`). -/
def process_wow (buf : List ℚ) (val : ℚ) : List ℚ × ℚ :=
  let tmp := buf.getD 0 0
  let d1 := buf.getD 1 0
  let d2 := buf.getD 2 0
  let d3 := buf.getD 3 0
  let d4 := buf.getD 4 0
  let d5 := buf.getD 5 0
  let d6 := buf.getD 6 0
  let d7 := buf.getD 7 0
  let iir1 := val * (3386435216458736 / 10000000000000000000000000 : ℚ) - (9889822559361133 / 10000000000000000 : ℚ) * tmp
      - ((-(1988898714745282 / 1000000000000000 : ℚ) : ℚ) * d1)
  let fir1 := tmp + (-d1 - d1) + iir1
  let iir2 := fir1 - (9997639015233543 / 10000000000000000 : ℚ) * d2 - ((-(1999763863368945 / 1000000000000000 : ℚ) : ℚ) * d3)
  let fir2 := d2 + (-d3 - d3) + iir2
  let iir3 := fir2 - (9849666019626395 / 10000000000000000 : ℚ) * d4 - ((-(1984903954482672 / 1000000000000000 : ℚ) : ℚ) * d5)
  let fir3 := d4 + (d5 + d5) + iir3
  let iir4 := fir3 - (9995704510105757 / 10000000000000000 : ℚ) * d6 - ((-(1999570400238568 / 1000000000000000 : ℚ) : ℚ) * d7)
  let fir4 := d6 + (d7 + d7) + iir4
  ([d1, iir1, d3, iir2, d5, iir3, d7, iir4], fir4)

/-- The flutter (6-200 Hz Bessel bandpass) weighting filter of filters.c
(`process_flutter`). -/
def process_flutter (buf : List ℚ) (val : ℚ) : List ℚ × ℚ :=
  let tmp := buf.getD 0 0
  let d1 := buf.getD 1 0
  let d2 := buf.getD 2 0
  let d3 := buf.getD 3 0
  let d4 := buf.getD 4 0
  let d5 := buf.getD 5 0
  let d6 := buf.getD 6 0
  let d7 := buf.getD 7 0
  let iir1 := val * (2980764585582655 / 10000000000000000000 : ℚ) - (6858715731999449 / 10000000000000000 : ℚ) * tmp
      - ((-(1605649703918556 / 1000000000000000 : ℚ) : ℚ) * d1)
  let fir1 := tmp + (-d1 - d1) + iir1
  let iir2 := fir1 - (9953215690037556 / 10000000000000000 : ℚ) * d2 - ((-(1995306892110805 / 1000000000000000 : ℚ) : ℚ) * d3)
  let fir2 := d2 + (-d3 - d3) + iir2
  let iir3 := fir2 - (5910983651395704 / 10000000000000000 : ℚ) * d4 - ((-(1532453681510474 / 1000000000000000 : ℚ) : ℚ) * d5)
  let fir3 := d4 + (d5 + d5) + iir3
  let iir4 := fir3 - (9916845997627537 / 10000000000000000 : ℚ) * d6 - ((-(1991665582083071 / 1000000000000000 : ℚ) : ℚ) * d7)
  let fir4 := d6 + (d7 + d7) + iir4
  ([d1, iir1, d3, iir2, d5, iir3, d7, iir4], fir4)

/-- The complete module state of flutter_meter.c and filters.c: every
`static` variable, in source order, plus the `static short
previous_sample_raw` that is local to `process_samples` but persists
across calls. -/
structure FMState where
  buf2nd_order : List ℚ
  buf_din : List ℚ
  buf_unw : List ℚ
  buf_wow : List ℚ
  buf_flutter : List ℚ
  previous_sample : ℤ
  current_interval_ns : ℚ
  interval_remainder_ns : ℚ
  nanoseconds_per_sample : ℚ
  expected_half_period_ns : ℚ
  test_frequency_hz : ℤ
  min_zero_crossings : ℤ
  max_zero_crossings : ℤ
  samples_per_100ms : ℤ
  filter_input : ℚ
  filter_output : ℚ
  is_first_buffer : Bool
  valid_sample_count : ℤ
  interval_sum_ns : ℚ
  average_interval_ns : ℚ
  measured_frequency_hz : ℚ
  rms_1sec_buffer_index : ℕ
  buffer_rms_1sec_sums : List ℚ
  peak_values_100ms : List ℚ
  peak_index_100ms : ℕ
  max_rms_array : List ℚ
  current_quasi_peak : ℚ
  result_rms_percent : ℚ
  result_quasi_peak : ℚ
  result_frequency_hz : ℚ
  previous_sample_raw : ℤ

/-- The state of the C statics at program start (zero-initialized, except
for the two variables with explicit initializers). -/
def initialState : FMState where
  buf2nd_order := List.replicate 4 0
  buf_din := List.replicate 8 0
  buf_unw := List.replicate 8 0
  buf_wow := List.replicate 8 0
  buf_flutter := List.replicate 8 0
  previous_sample := 0
  current_interval_ns := 0
  interval_remainder_ns := 0
  nanoseconds_per_sample := 0
  expected_half_period_ns := (5 / 10 : ℚ) * 1000000000 / 3150
  test_frequency_hz := 3150
  min_zero_crossings := 0
  max_zero_crossings := 0
  samples_per_100ms := 0
  filter_input := 0
  filter_output := 0
  is_first_buffer := false
  valid_sample_count := 0
  interval_sum_ns := 0
  average_interval_ns := 0
  measured_frequency_hz := 0
  rms_1sec_buffer_index := 0
  buffer_rms_1sec_sums := List.replicate 10 0
  peak_values_100ms := List.replicate 50 0
  peak_index_100ms := 0
  max_rms_array := List.replicate 50 0
  current_quasi_peak := 0
  result_rms_percent := 0
  result_quasi_peak := 0
  result_frequency_hz := 0
  previous_sample_raw := 0

/-- Zeroing of all five filter buffers, `reset_filters()` of filters.c. -/
def reset_filters (s : FMState) : FMState :=
  { s with
    buf2nd_order := List.replicate 4 0
    buf_din := List.replicate 8 0
    buf_unw := List.replicate 8 0
    buf_wow := List.replicate 8 0
    buf_flutter := List.replicate 8 0 }

/-- The initialization routine `flutterMeter_init(int sample_rate, double
test_frequency)` of flutter_meter.c, line by line.  Note `test_frequency_hz
/ 5` in the source is C `int` division (truncation toward zero,
`Int.tdiv`), and the assignments of the `double` products to the `int`
gate bounds truncate toward zero. -/
def flutterMeter_init (sample_rate : ℤ) (test_frequency : ℚ) (s : FMState) : FMState :=
  let s := { s with
    result_rms_percent := 0
    result_quasi_peak := 0
    result_frequency_hz := 0 }
  let s := reset_filters s
  let tfhz : ℤ := truncQ test_frequency
  { s with
    test_frequency_hz := tfhz
    expected_half_period_ns := (5 / 10 : ℚ) * 1000000000 / test_frequency
    min_zero_crossings := truncQ ((Int.tdiv tfhz 5 : ℚ) * (95 / 100 : ℚ))
    max_zero_crossings := truncQ ((Int.tdiv tfhz 5 : ℚ) * (105 / 100 : ℚ))
    samples_per_100ms := Int.tdiv sample_rate 10
    nanoseconds_per_sample := 1000000000 / (sample_rate : ℚ)
    is_first_buffer := true
    rms_1sec_buffer_index := 0
    interval_sum_ns := 0
    average_interval_ns := 0
    current_interval_ns := 0
    interval_remainder_ns := 0
    previous_sample := 0
    current_quasi_peak := 0
    buffer_rms_1sec_sums := List.replicate 10 0
    peak_values_100ms := List.replicate 50 0
    max_rms_array := List.replicate 50 0
    peak_index_100ms := 0 }

/-- The result of the first (validation) pass over a 100 ms window,
lines 219-236 of flutter_meter.c: the window maximum of the positive
sample values, the zero-crossing count, and the final value of the
static `previous_sample_raw`. -/
structure GateOut where
  max_amplitude : ℤ
  zero_crossing_count : ℤ
  previous_raw : ℤ

/-- The first pass over a 100 ms window: amplitude maximum (signed
comparison against an accumulator starting at 0), zero-crossing count
with the convention `(curr ≥ 0 ∧ prev < 0) ∨ (curr < 0 ∧ prev ≥ 0)`, and
threading of `previous_sample_raw`. -/
def gateStep (g : GateOut) (x : ℤ) : GateOut :=
  let sample := toShort x
  { max_amplitude := if sample > g.max_amplitude then sample else g.max_amplitude
    zero_crossing_count :=
      if (0 ≤ sample ∧ g.previous_raw < 0) ∨ (sample < 0 ∧ 0 ≤ g.previous_raw) then
        g.zero_crossing_count + 1
      else g.zero_crossing_count
    previous_raw := sample }

/-- The complete first pass over a window. -/
def gatePass (previous_raw : ℤ) (w : List ℤ) : GateOut :=
  w.foldl gateStep
    { max_amplitude := 0, zero_crossing_count := 0, previous_raw := previous_raw }

/-- The guarded interpolation denominator of lines 273-278: `denom =
current - previous`, replaced by plus or minus 10⁻⁹ when its magnitude is
below 10⁻⁹. -/
def crossingDenom (previous current : ℤ) : ℚ :=
  let denom : ℚ := (current : ℚ) - (previous : ℚ)
  if |denom| < (1 / 1000000000 : ℚ) then
    (if 0 ≤ denom then (1 / 1000000000 : ℚ) else -(1 / 1000000000 : ℚ))
  else denom

/-- The zero-crossing detection step, lines 264-297 of flutter_meter.c:
given the isolator output for one sample, updates
`current_interval_ns`, `interval_remainder_ns` and `previous_sample`, and
reports whether a crossing event fires. -/
def detectStep (s : FMState) (fout : ℚ) : FMState × Bool :=
  let current := truncQ fout
  let step1 :=
    if (0 < current ∧ s.previous_sample < 0) ∨ (current < 0 ∧ 0 < s.previous_sample) then
      let denom := crossingDenom s.previous_sample current
      let crossing_offset_ns := -(s.previous_sample : ℚ) * s.nanoseconds_per_sample / denom
      ({ s with
          current_interval_ns := s.current_interval_ns + crossing_offset_ns
          interval_remainder_ns := s.nanoseconds_per_sample - crossing_offset_ns }, true)
    else
      ({ s with current_interval_ns := s.current_interval_ns + s.nanoseconds_per_sample }, false)
  let step2 :=
    if current = 0 then ({ step1.1 with interval_remainder_ns := 0 }, true) else step1
  ({ step2.1 with previous_sample := current }, step2.2)

/-- The weighting-filter switch of lines 315-337: filter_type 0 =
unweighted, 1 = DIN, 2 = wow, 3 = flutter, default = unweighted. -/
def applyWeight (filter_type : ℤ) (s : FMState) (err : ℚ) : FMState × ℚ :=
  if filter_type = 0 then
    let r := process_unweighted s.buf_unw err
    ({ s with buf_unw := r.1 }, r.2)
  else if filter_type = 1 then
    let r := process_DIN s.buf_din err
    ({ s with buf_din := r.1 }, r.2)
  else if filter_type = 2 then
    let r := process_wow s.buf_wow err
    ({ s with buf_wow := r.1 }, r.2)
  else if filter_type = 3 then
    let r := process_flutter s.buf_flutter err
    ({ s with buf_flutter := r.1 }, r.2)
  else
    let r := process_unweighted s.buf_unw err
    ({ s with buf_unw := r.1 }, r.2)

/-- The per-sample processing state of the second (DSP) pass: the module
state together with the loop-local variables `sum_of_squares` and
`max_quasi_peak` of the 100 ms window, the call-local accumulators
`freq_sum_5sec` and `freq_count_5sec` of `process_samples`, and the
list of interval values added to `interval_sum_ns` so far (an
observation of line 357, recording each emitted inter-crossing interval;
it is not itself a C variable and no other field depends on it). -/
structure DspState where
  st : FMState
  sum_of_squares : ℚ
  max_quasi_peak : ℚ
  freq_sum_5sec : ℚ
  freq_count_5sec : ℤ
  emissions : List ℚ

/-- The crossing-event handler, lines 300-365 of flutter_meter.c: the
warmup branch consumes the first crossing of the session; otherwise the
timing error is weighted, the quasi-peak and RMS accumulators are
updated, and the interval accumulator is handed over to the carried
remainder. -/
def crossingEvent (filter_type : ℤ) (d : DspState) : DspState :=
  let s := d.st
  if s.is_first_buffer then
    { d with st := { s with valid_sample_count := 0, is_first_buffer := false } }
  else
    let timing_error_percent :=
      (s.expected_half_period_ns - s.current_interval_ns) / s.expected_half_period_ns
    let w := applyWeight filter_type s timing_error_percent
    let s := w.1
    let weighted := w.2
    let measurement_value := |weighted| * 10000 / 85
    let qp :=
      if measurement_value > s.current_quasi_peak then
        s.current_quasi_peak + (measurement_value - s.current_quasi_peak) / 500
      else
        s.current_quasi_peak + (measurement_value - s.current_quasi_peak) / 6000
    let interval_sum := s.interval_sum_ns + s.current_interval_ns
    let valid := s.valid_sample_count + 1
    let avg := interval_sum / (valid : ℚ)
    let mf := 1000000000 / avg / 2
    { st := { s with
        current_quasi_peak := qp
        valid_sample_count := valid
        interval_sum_ns := interval_sum
        current_interval_ns := s.interval_remainder_ns
        average_interval_ns := avg
        measured_frequency_hz := mf }
      sum_of_squares := d.sum_of_squares + weighted * weighted
      max_quasi_peak := qp
      freq_sum_5sec := d.freq_sum_5sec + mf
      freq_count_5sec := d.freq_count_5sec + 1
      emissions := d.emissions ++ [s.current_interval_ns] }

/-- Crossing detection followed by the crossing-event handler, applied to
one isolator output value. -/
def detectEventStep (filter_type : ℤ) (d : DspState) (fout : ℚ) : DspState :=
  let r := detectStep d.st fout
  let d1 := { d with st := r.1 }
  if r.2 then crossingEvent filter_type d1 else d1

/-- One iteration of the second (DSP) pass loop, lines 256-366: truncate
the sample to 16 bits, run the isolator, then detect and handle a
crossing. -/
def dspStep (filter_type : ℤ) (d : DspState) (x : ℤ) : DspState :=
  let sample := toShort x
  let s := d.st
  let r := process_2nd_order s.buf2nd_order (sample : ℚ)
  detectEventStep filter_type
    { d with st := { s with
        filter_input := (sample : ℚ)
        buf2nd_order := r.1
        filter_output := r.2 } }
    r.2

/-- The state threaded through the 100-window loop of `process_samples`:
the module state plus the call-local `freq_sum_5sec` and
`freq_count_5sec`. -/
structure CallState where
  st : FMState
  freq_sum_5sec : ℚ
  freq_count_5sec : ℤ

/-- The window-local DSP state at the start of a valid window's second
pass: sum of squares and max quasi-peak reset, call-local frequency
accumulators carried over, and the gate-updated `previous_sample_raw`
installed. -/
def dspInit (c : CallState) (previous_raw : ℤ) : DspState :=
  { st := { c.st with previous_sample_raw := previous_raw }
    sum_of_squares := 0
    max_quasi_peak := 0
    freq_sum_5sec := c.freq_sum_5sec
    freq_count_5sec := c.freq_count_5sec
    emissions := [] }

/-- The second pass and end-of-window bookkeeping for a valid 100 ms
window, lines 253-425 of flutter_meter.c (everything after the two gate
checks), with `previous_raw` the gate-updated value of
`previous_sample_raw`. -/
def dspBlock (sqrtFn : ℚ → ℚ) (filter_type : ℤ) (c : CallState) (w : List ℤ)
    (previous_raw : ℤ) : CallState :=
  let d := w.foldl (dspStep filter_type) (dspInit c previous_raw)
  let s := d.st
  let s := { s with
    buffer_rms_1sec_sums := s.buffer_rms_1sec_sums.set s.rms_1sec_buffer_index d.sum_of_squares
    peak_values_100ms := s.peak_values_100ms.set s.peak_index_100ms d.max_quasi_peak }
  let pidx := if s.peak_index_100ms + 1 = 50 then 0 else s.peak_index_100ms + 1
  let s := { s with peak_index_100ms := pidx }
  let ridx := s.rms_1sec_buffer_index + 1
  if ridx = 10 then
    let total_sum_of_squares := s.buffer_rms_1sec_sums.foldl (fun a x => a + x) 0
    let rms_value := sqrtFn (total_sum_of_squares / (s.valid_sample_count : ℚ)) * 100
    let mra := s.max_rms_array.set pidx rms_value
    let max_rms_10sec := mra.foldl (fun a x => if x > a then x else a) 0
    let max_peak_10sec := s.peak_values_100ms.foldl (fun a x => if x > a then x else a) 0
    { st := { s with
        max_rms_array := mra
        result_rms_percent := max_rms_10sec
        result_quasi_peak := max_peak_10sec
        result_frequency_hz :=
          if d.freq_count_5sec > 0 then d.freq_sum_5sec / (d.freq_count_5sec : ℚ)
          else s.result_frequency_hz
        valid_sample_count := 0
        rms_1sec_buffer_index := 0
        interval_sum_ns := 0 }
      freq_sum_5sec := d.freq_sum_5sec
      freq_count_5sec := d.freq_count_5sec }
  else
    { st := { s with rms_1sec_buffer_index := ridx }
      freq_sum_5sec := d.freq_sum_5sec
      freq_count_5sec := d.freq_count_5sec }

/-- One 100 ms window of the main loop, lines 211-426: the validation
pass, the two skip checks (amplitude below 50, crossing count out of
range), and on a valid window the DSP pass with its bookkeeping. -/
def processWindow (sqrtFn : ℚ → ℚ) (filter_type : ℤ) (c : CallState) (w : List ℤ) :
    CallState :=
  let g := gatePass c.st.previous_sample_raw w
  if g.max_amplitude < 50 then
    { c with st := { c.st with previous_sample_raw := g.previous_raw } }
  else if g.zero_crossing_count < c.st.min_zero_crossings ∨
      g.zero_crossing_count > c.st.max_zero_crossings then
    { c with st := { c.st with previous_sample_raw := g.previous_raw } }
  else
    dspBlock sqrtFn filter_type c w g.previous_raw

/-- The k-th 100 ms window of the sample buffer: the C pointer `samples`
advances by `samples_per_100ms` once per window. -/
def windowOf (samples : List ℤ) (spw k : ℕ) : List ℤ :=
  (samples.drop (k * spw)).take spw

/-- The public entry point `process_samples(samples, num_samples,
filter_type)`, lines 197-429: reject when fewer than 100 windows of
samples are available, otherwise run exactly 100 windows and return 0.
The first component of the result is the C return value. -/
def process_samples (sqrtFn : ℚ → ℚ) (s : FMState) (samples : List ℤ)
    (num_samples : ℤ) (filter_type : ℤ) : ℤ × FMState :=
  if num_samples < s.samples_per_100ms * 100 then
    (-1, s)
  else
    let spw := s.samples_per_100ms.toNat
    let c0 : CallState := { st := s, freq_sum_5sec := 0, freq_count_5sec := 0 }
    let c := (List.range 100).foldl
      (fun c k => processWindow sqrtFn filter_type c (windowOf samples spw k)) c0
    (0, c.st)

/-- The public accessor `get_results(peak, rms, freq)`, lines 438-443,
as the triple it stores through its out parameters. -/
def get_results (s : FMState) : ℚ × ℚ × ℚ :=
  (s.result_quasi_peak, s.result_rms_percent, s.result_frequency_hz)

/-- Derived elapsed-time increment of the crossing detector for one
isolator output: the interpolated crossing offset on a strict sign
change, a full sample period otherwise.  It mirrors the accumulation
arithmetic of `detectStep` exactly (including the guarded denominator)
but performs no handover, so summing it measures total elapsed time from
a starting point. -/
def spanInc (nsps : ℚ) (previous : ℤ) (fout : ℚ) : ℚ :=
  let current := truncQ fout
  if (0 < current ∧ previous < 0) ∨ (current < 0 ∧ 0 < previous) then
    -(previous : ℚ) * nsps / crossingDenom previous current
  else nsps

/-- One step of the derived elapsed-time accumulator: track the previous
truncated output and add the increment, never resetting. -/
def spanStep (nsps : ℚ) (a : ℤ × ℚ) (fout : ℚ) : ℤ × ℚ :=
  (truncQ fout, a.2 + spanInc nsps a.1 fout)

/-- Total elapsed time (in the detector's accounting) over a list of
isolator outputs, starting from a given previous sample, with no
handover or reset: the span from the first processed sample through the
end of the list. -/
def spanRun (nsps : ℚ) (previous : ℤ) (fs : List ℚ) : ℚ :=
  (fs.foldl (spanStep nsps) (previous, 0)).2

/-- Shared concrete fixture: the module state after `flutterMeter_init(10,
10)` from the start-up state (window length 1, crossing gate [1, 2]). -/
def testState : FMState := flutterMeter_init 10 10 initialState

/-- Shared concrete fixture: call state for `testState` at call entry. -/
def testCall : CallState := { st := testState, freq_sum_5sec := 0, freq_count_5sec := 0 }

/-- Shared concrete fixture: `testState` with a negative
`previous_sample`. -/
def c4s : FMState := { testState with previous_sample := -3 }

/-- Shared concrete fixture: `testState` about to finish its tenth valid
block (1-second index at 9). -/
def test9 : CallState :=
  { st := { testState with rms_1sec_buffer_index := 9 },
    freq_sum_5sec := 0, freq_count_5sec := 0 }

/-- Shared concrete fixture: the DSP pass of the window [100, −100] from
`test9`. -/
def test9D : DspState :=
  ([100, -100] : List ℤ).foldl (dspStep 1)
    (dspInit test9 (gatePass test9.st.previous_sample_raw [100, -100]).previous_raw)

/-- Shared concrete fixture: the post-incremented peak index of
`test9`. -/
def test9pidx : ℕ :=
  if test9.st.peak_index_100ms + 1 = 50 then 0 else test9.st.peak_index_100ms + 1

/-- Shared concrete fixture: the per-second RMS value of `test9D` under
the identity model of sqrt. -/
def test9rmsv : ℚ :=
  (fun q => q) ((test9D.st.buffer_rms_1sec_sums.set 9 test9D.sum_of_squares).sum /
    (test9D.st.valid_sample_count : ℚ)) * 100



/-
Theorems about the claims.  Rational arithmetic is made reducible locally
so that concrete executions of the embedded code can be settled by
`decide`.
-/

section ClaimProofs
attribute [local semireducible] Rat.add Rat.mul Rat.inv Rat.sub

/-- Truncation toward zero agrees with the floor on nonnegative
rationals. -/
theorem truncQ_eq_floor (q : ℚ) (h : 0 ≤ q) : truncQ q = ⌊q⌋ := by
  rw [truncQ, if_pos h, Rat.floor_def', Rat.floor_def]

/-- Claim C1, counterexample: at `flutterMeter_init(48000, 3154)` the code
computes `min_zero_crossings = trunc(trunc(3154 / 5) * 0.95) = 598`,
whereas the claimed single floor of the real product `3154 / 5 * 0.95 =
599.26` is `599`.  The claim's formula therefore does not describe the
code. -/
theorem c1_single_floor_cex :
    (flutterMeter_init 48000 3154 initialState).min_zero_crossings ≠
      ⌊(3154 : ℚ) / 5 * (95 / 100)⌋ := by
  have h1 : (flutterMeter_init 48000 3154 initialState).min_zero_crossings = 598 := by
    decide
  have h2 : ⌊(3154 : ℚ) / 5 * (95 / 100)⌋ = 599 := by
    rw [Int.floor_eq_iff]
    norm_num
  rw [h1, h2]
  decide

/-- Claim C1 as amended: for positive `sample_rate` and `test_frequency`,
`flutterMeter_init` computes `min_zero_crossings = ⌊(⌊test_frequency⌋ tdiv
5) × 0.95⌋` and `max_zero_crossings = ⌊(⌊test_frequency⌋ tdiv 5) × 1.05⌋`
(the C `int` division by 5 truncates before the ±5 percent scaling), and
`samples_per_100ms = ⌊sample_rate / 10⌋` and `expected_half_period_ns =
0.5 × 10⁹ / test_frequency`. -/
theorem c1_init_config (sample_rate : ℤ) (test_frequency : ℚ) (s : FMState)
    (hsr : 0 < sample_rate) (htf : 0 < test_frequency) :
    (flutterMeter_init sample_rate test_frequency s).min_zero_crossings
        = ⌊((⌊test_frequency⌋ / 5 : ℤ) : ℚ) * (95 / 100)⌋ ∧
    (flutterMeter_init sample_rate test_frequency s).max_zero_crossings
        = ⌊((⌊test_frequency⌋ / 5 : ℤ) : ℚ) * (105 / 100)⌋ ∧
    (flutterMeter_init sample_rate test_frequency s).samples_per_100ms
        = sample_rate / 10 ∧
    (flutterMeter_init sample_rate test_frequency s).expected_half_period_ns
        = (5 / 10 : ℚ) * 1000000000 / test_frequency := by
  have htrunc : truncQ test_frequency = ⌊test_frequency⌋ :=
    truncQ_eq_floor test_frequency htf.le
  have hfloor_nonneg : (0 : ℤ) ≤ ⌊test_frequency⌋ := Int.floor_nonneg.mpr htf.le
  have hdiv : Int.tdiv (truncQ test_frequency) 5 = (⌊test_frequency⌋ / 5 : ℤ) := by
    rw [htrunc]
    exact Int.tdiv_eq_ediv hfloor_nonneg (by norm_num)
  have hdiv_nonneg : (0 : ℤ) ≤ ⌊test_frequency⌋ / 5 :=
    Int.ediv_nonneg hfloor_nonneg (by norm_num)
  refine ⟨?_, ?_, ?_, rfl⟩
  · show truncQ ((Int.tdiv (truncQ test_frequency) 5 : ℚ) * (95 / 100)) = _
    rw [hdiv, truncQ_eq_floor]
    positivity
  · show truncQ ((Int.tdiv (truncQ test_frequency) 5 : ℚ) * (105 / 100)) = _
    rw [hdiv, truncQ_eq_floor]
    positivity
  · show Int.tdiv sample_rate 10 = sample_rate / 10
    exact Int.tdiv_eq_ediv hsr.le (by norm_num)

/-- Witness for c1_init_config at `init(48000, 3150)`. -/
theorem c1_init_config_witness :
    (flutterMeter_init 48000 3150 initialState).min_zero_crossings
        = ⌊((⌊(3150 : ℚ)⌋ / 5 : ℤ) : ℚ) * (95 / 100)⌋ ∧
    (flutterMeter_init 48000 3150 initialState).max_zero_crossings
        = ⌊((⌊(3150 : ℚ)⌋ / 5 : ℤ) : ℚ) * (105 / 100)⌋ ∧
    (flutterMeter_init 48000 3150 initialState).samples_per_100ms
        = 48000 / 10 ∧
    (flutterMeter_init 48000 3150 initialState).expected_half_period_ns
        = (5 / 10 : ℚ) * 1000000000 / 3150 :=
  c1_init_config 48000 3150 initialState (by norm_num) (by norm_num)

/-- Folds agree when the step functions agree on the list's elements. -/
theorem foldl_congr_mem {α β : Type} (f g : β → α → β) (l : List α) (b : β)
    (h : ∀ (b' : β) (x : α), x ∈ l → f b' x = g b' x) : l.foldl f b = l.foldl g b := by
  induction l generalizing b with
  | nil => rfl
  | cons a t ih =>
    simp only [List.foldl_cons]
    rw [h b a (by simp)]
    exact ih _ fun b' x hx => h b' x (List.mem_cons_of_mem a hx)

/-- The first 100 windows read only the first `100 * spw` samples. -/
theorem windowOf_take (samples : List ℤ) (spw k : ℕ) (hk : k < 100) :
    windowOf (samples.take (100 * spw)) spw k = windowOf samples spw k := by
  unfold windowOf
  rw [List.drop_take, List.take_take]
  congr 1
  have : spw ≤ 100 * spw - k * spw := by
    have h1 : (k + 1) * spw ≤ 100 * spw := Nat.mul_le_mul_right spw hk
    have h2 : (k + 1) * spw = k * spw + spw := by ring
    omega
  omega

/-- Claim C2: a call with `num_samples < 100 × samples_per_100ms` returns
−1 and leaves the complete measurement state untouched; a call with
`num_samples ≥ 100 × samples_per_100ms` returns 0 and depends only on the
first `100 × samples_per_100ms` samples (extra samples are ignored, and
exactly 100 windows are processed). -/
theorem c2_insufficient_samples (sqrtFn : ℚ → ℚ) (s : FMState) (samples : List ℤ)
    (num_samples filter_type : ℤ) :
    (num_samples < s.samples_per_100ms * 100 →
      process_samples sqrtFn s samples num_samples filter_type = (-1, s)) ∧
    (s.samples_per_100ms * 100 ≤ num_samples →
      (process_samples sqrtFn s samples num_samples filter_type).1 = 0 ∧
      process_samples sqrtFn s samples num_samples filter_type =
        process_samples sqrtFn s (samples.take (100 * s.samples_per_100ms.toNat))
          num_samples filter_type) := by
  constructor
  · intro h
    rw [process_samples, if_pos h]
  · intro h
    have hn : ¬ num_samples < s.samples_per_100ms * 100 := not_lt.mpr h
    constructor
    · rw [process_samples, if_neg hn]
    · rw [process_samples, process_samples, if_neg hn, if_neg hn]
      have := foldl_congr_mem
        (fun c k => processWindow sqrtFn filter_type c
          (windowOf (samples.take (100 * s.samples_per_100ms.toNat)) s.samples_per_100ms.toNat k))
        (fun c k => processWindow sqrtFn filter_type c
          (windowOf samples s.samples_per_100ms.toNat k))
        (List.range 100)
        { st := s, freq_sum_5sec := 0, freq_count_5sec := 0 }
        (fun c' k hk =>
          congrArg (processWindow sqrtFn filter_type c')
            (windowOf_take samples s.samples_per_100ms.toNat k (List.mem_range.mp hk)))
      exact (congrArg (fun c : CallState => ((0 : ℤ), c.st)) this).symm

/-- Witness for c2_insufficient_samples: with the start-up state
(`samples_per_100ms = 0`) a call with −5 samples is rejected without
state change, and a call with 0 samples succeeds. -/
theorem c2_insufficient_samples_witness :
    process_samples (fun q => q) initialState [] (-5) 0 = (-1, initialState) ∧
    (process_samples (fun q => q) initialState [] 0 0).1 = 0 :=
  ⟨(c2_insufficient_samples (fun q => q) initialState [] (-5) 0).1 (by decide),
   ((c2_insufficient_samples (fun q => q) initialState [] 0 0).2 (by decide)).1⟩

/-- The branch form of the amplitude update is the binary maximum. -/
theorem if_gt_eq_max (a b : ℤ) : (if b > a then b else a) = max a b := by
  by_cases h : a < b
  · rw [if_pos h, max_eq_right h.le]
  · rw [if_neg h, max_eq_left (not_lt.mp h)]

/-- The gate's amplitude accumulator computes the maximum of 0 and the
positive excursions of the (16-bit truncated) window samples. -/
theorem gatePass_max_amplitude (previous_raw : ℤ) (w : List ℤ) :
    (gatePass previous_raw w).max_amplitude = (w.map toShort).foldl max 0 := by
  suffices h : ∀ (w : List ℤ) (g : GateOut),
      (w.foldl gateStep g).max_amplitude = (w.map toShort).foldl max g.max_amplitude from
    h w _
  intro w
  induction w with
  | nil => intro g; rfl
  | cons x t ih =>
    intro g
    simp only [List.foldl_cons, List.map_cons]
    rw [ih]
    congr 1
    exact if_gt_eq_max g.max_amplitude (toShort x)

/-- Claim C3: the second (DSP) pass of a 100 ms block runs exactly when
`max_amplitude ≥ 50` and `min_zero_crossings ≤ zero_crossing_count ≤
max_zero_crossings`, where `max_amplitude` tracks only positive sample
values under signed comparison (it is the fold of `max` from 0); a block
failing the check changes nothing except the gate's `previous_sample_raw`
(in particular the filter buffers, crossing state, window rings, indices
and published results are untouched, and only the window position
advances). -/
theorem c3_gate_controls_dsp (sqrtFn : ℚ → ℚ) (filter_type : ℤ) (c : CallState)
    (w : List ℤ) :
    (gatePass c.st.previous_sample_raw w).max_amplitude = (w.map toShort).foldl max 0 ∧
    ((50 ≤ (gatePass c.st.previous_sample_raw w).max_amplitude ∧
      c.st.min_zero_crossings ≤ (gatePass c.st.previous_sample_raw w).zero_crossing_count ∧
      (gatePass c.st.previous_sample_raw w).zero_crossing_count ≤ c.st.max_zero_crossings) →
      processWindow sqrtFn filter_type c w =
        dspBlock sqrtFn filter_type c w (gatePass c.st.previous_sample_raw w).previous_raw) ∧
    (¬ (50 ≤ (gatePass c.st.previous_sample_raw w).max_amplitude ∧
      c.st.min_zero_crossings ≤ (gatePass c.st.previous_sample_raw w).zero_crossing_count ∧
      (gatePass c.st.previous_sample_raw w).zero_crossing_count ≤ c.st.max_zero_crossings) →
      processWindow sqrtFn filter_type c w =
        { c with st := { c.st with
            previous_sample_raw := (gatePass c.st.previous_sample_raw w).previous_raw } }) := by
  refine ⟨gatePass_max_amplitude c.st.previous_sample_raw w, ?_, ?_⟩
  · intro h
    have h1 : ¬ (gatePass c.st.previous_sample_raw w).max_amplitude < 50 := not_lt.mpr h.1
    have h2 : ¬ ((gatePass c.st.previous_sample_raw w).zero_crossing_count <
          c.st.min_zero_crossings ∨
        (gatePass c.st.previous_sample_raw w).zero_crossing_count >
          c.st.max_zero_crossings) := by
      omega
    simp only [processWindow]
    rw [if_neg h1, if_neg h2]
  · intro h
    by_cases h1 : (gatePass c.st.previous_sample_raw w).max_amplitude < 50
    · simp only [processWindow]
      rw [if_pos h1]
    · have h2 : (gatePass c.st.previous_sample_raw w).zero_crossing_count <
          c.st.min_zero_crossings ∨
        (gatePass c.st.previous_sample_raw w).zero_crossing_count >
          c.st.max_zero_crossings := by
        omega
      simp only [processWindow]
      rw [if_neg h1, if_pos h2]


/-- Witness for c3_gate_controls_dsp: the window [100, −100] is valid and
runs the DSP pass; the window [0] is rejected and only the gate's
previous raw sample changes. -/
theorem c3_gate_controls_dsp_witness :
    processWindow (fun q => q) 1 testCall [100, -100] =
      dspBlock (fun q => q) 1 testCall [100, -100]
        (gatePass testCall.st.previous_sample_raw [100, -100]).previous_raw ∧
    processWindow (fun q => q) 1 testCall [0] =
      { testCall with st := { testCall.st with
          previous_sample_raw := (gatePass testCall.st.previous_sample_raw [0]).previous_raw } } :=
  ⟨(c3_gate_controls_dsp (fun q => q) 1 testCall [100, -100]).2.1 (by decide),
   (c3_gate_controls_dsp (fun q => q) 1 testCall [0]).2.2 (by decide)⟩

/-- On a strict sign change the guarded denominator is just `current -
previous`: the magnitude is at least 2, far above the 10⁻⁹ guard. -/
theorem crossingDenom_of_opposite (previous current : ℤ)
    (h : (0 < current ∧ previous < 0) ∨ (current < 0 ∧ 0 < previous)) :
    crossingDenom previous current = (current : ℚ) - (previous : ℚ) := by
  have habs : 2 ≤ |(current : ℚ) - (previous : ℚ)| := by
    rcases h with ⟨h1, h2⟩ | ⟨h1, h2⟩
    · have hd : (2 : ℚ) ≤ (current : ℚ) - (previous : ℚ) := by
        exact_mod_cast (by omega : (2 : ℤ) ≤ current - previous)
      rw [abs_of_nonneg (by linarith)]
      exact hd
    · have hd : (current : ℚ) - (previous : ℚ) ≤ -2 := by
        exact_mod_cast (by omega : current - previous ≤ (-2 : ℤ))
      rw [abs_of_nonpos (by linarith)]
      linarith
  have hguard : ¬ (|(current : ℚ) - (previous : ℚ)| < (1 / 1000000000 : ℚ)) := by
    refine not_lt.mpr (le_trans (by norm_num) habs)
  simp only [crossingDenom]
  rw [if_neg hguard]

/-- Claim C10: in the sign-change branch `current` and `previous` have
strictly opposite signs, so the denominator `current - previous` has
magnitude at least 2; the `fabs(denom) < 1e-9` substitution never fires
(the guarded denominator equals the raw difference) and the
interpolation never divides by zero. -/
theorem c10_interpolation_denominator_safe (previous current : ℤ)
    (h : (0 < current ∧ previous < 0) ∨ (current < 0 ∧ 0 < previous)) :
    crossingDenom previous current = (current : ℚ) - (previous : ℚ) ∧
    2 ≤ |(current : ℚ) - (previous : ℚ)| ∧
    ¬ (|(current : ℚ) - (previous : ℚ)| < (1 / 1000000000 : ℚ)) ∧
    (current : ℚ) - (previous : ℚ) ≠ 0 := by
  have hd := crossingDenom_of_opposite previous current h
  have habs : 2 ≤ |(current : ℚ) - (previous : ℚ)| := by
    rcases h with ⟨h1, h2⟩ | ⟨h1, h2⟩
    · have hd2 : (2 : ℚ) ≤ (current : ℚ) - (previous : ℚ) := by
        exact_mod_cast (by omega : (2 : ℤ) ≤ current - previous)
      rw [abs_of_nonneg (by linarith)]
      exact hd2
    · have hd2 : (current : ℚ) - (previous : ℚ) ≤ -2 := by
        exact_mod_cast (by omega : current - previous ≤ (-2 : ℤ))
      rw [abs_of_nonpos (by linarith)]
      linarith
  refine ⟨hd, habs, not_lt.mpr (le_trans (by norm_num) habs), ?_⟩
  intro h0
  rw [h0, abs_zero] at habs
  norm_num at habs

/-- Witness for c10_interpolation_denominator_safe at `previous = -3`,
`current = 2`. -/
theorem c10_interpolation_denominator_safe_witness :
    crossingDenom (-3) 2 = ((2 : ℤ) : ℚ) - ((-3 : ℤ) : ℚ) ∧
    2 ≤ |((2 : ℤ) : ℚ) - ((-3 : ℤ) : ℚ)| ∧
    ¬ (|((2 : ℤ) : ℚ) - ((-3 : ℤ) : ℚ)| < (1 / 1000000000 : ℚ)) ∧
    ((2 : ℤ) : ℚ) - ((-3 : ℤ) : ℚ) ≠ 0 :=
  c10_interpolation_denominator_safe (-3) 2 (by decide)

/-- Claim C4: within a valid block, a sample whose truncated isolator
output has strictly opposite sign to `previous_sample` adds
`crossing_offset_ns = -previous × nanoseconds_per_sample / (current -
previous)` to the accumulating interval, sets the carry remainder to
`nanoseconds_per_sample - crossing_offset_ns`, and marks a crossing;
every other sample adds exactly `nanoseconds_per_sample`; and a truncated
output of exactly zero unconditionally zeroes the carry remainder and
marks a crossing (overriding the sign-change remainder). -/
theorem c4_crossing_interpolation (s : FMState) (fout : ℚ) :
    (((0 < truncQ fout ∧ s.previous_sample < 0) ∨
        (truncQ fout < 0 ∧ 0 < s.previous_sample)) →
      detectStep s fout =
        ({ s with
            current_interval_ns := s.current_interval_ns +
              -(s.previous_sample : ℚ) * s.nanoseconds_per_sample /
                ((truncQ fout : ℚ) - (s.previous_sample : ℚ))
            interval_remainder_ns := s.nanoseconds_per_sample -
              -(s.previous_sample : ℚ) * s.nanoseconds_per_sample /
                ((truncQ fout : ℚ) - (s.previous_sample : ℚ))
            previous_sample := truncQ fout }, true)) ∧
    (¬ ((0 < truncQ fout ∧ s.previous_sample < 0) ∨
        (truncQ fout < 0 ∧ 0 < s.previous_sample)) →
      truncQ fout ≠ 0 →
      detectStep s fout =
        ({ s with
            current_interval_ns := s.current_interval_ns + s.nanoseconds_per_sample
            previous_sample := truncQ fout }, false)) ∧
    (truncQ fout = 0 →
      detectStep s fout =
        ({ s with
            current_interval_ns := s.current_interval_ns + s.nanoseconds_per_sample
            interval_remainder_ns := 0
            previous_sample := 0 }, true)) := by
  refine ⟨?_, ?_, ?_⟩
  · intro h
    have hne : truncQ fout ≠ 0 := by
      rcases h with ⟨h1, _⟩ | ⟨h1, _⟩ <;> omega
    simp only [detectStep]
    rw [if_pos h, crossingDenom_of_opposite _ _ h, if_neg hne]
  · intro h hne
    simp only [detectStep]
    rw [if_neg h, if_neg hne]
  · intro h0
    have hno : ¬ ((0 < truncQ fout ∧ s.previous_sample < 0) ∨
        (truncQ fout < 0 ∧ 0 < s.previous_sample)) := by
      omega
    simp only [detectStep]
    rw [if_neg hno, if_pos h0, h0]


/-- Witness for c4_crossing_interpolation: a sign change at isolator
output 5/2 from previous −3; a non-crossing sample (output 3/2 from
previous 0); an exact-zero output 1/2 (truncating to 0). -/
theorem c4_crossing_interpolation_witness :
    detectStep c4s (5 / 2) =
      ({ c4s with
          current_interval_ns := c4s.current_interval_ns +
            -(c4s.previous_sample : ℚ) * c4s.nanoseconds_per_sample /
              ((truncQ (5 / 2) : ℚ) - (c4s.previous_sample : ℚ))
          interval_remainder_ns := c4s.nanoseconds_per_sample -
            -(c4s.previous_sample : ℚ) * c4s.nanoseconds_per_sample /
              ((truncQ (5 / 2) : ℚ) - (c4s.previous_sample : ℚ))
          previous_sample := truncQ (5 / 2) }, true) ∧
    detectStep testState (3 / 2) =
      ({ testState with
          current_interval_ns := testState.current_interval_ns +
            testState.nanoseconds_per_sample
          previous_sample := truncQ (3 / 2) }, false) ∧
    detectStep testState (1 / 2) =
      ({ testState with
          current_interval_ns := testState.current_interval_ns +
            testState.nanoseconds_per_sample
          interval_remainder_ns := 0
          previous_sample := 0 }, true) :=
  ⟨(c4_crossing_interpolation c4s (5 / 2)).1 (by decide),
   (c4_crossing_interpolation testState (3 / 2)).2.1 (by decide) (by decide),
   (c4_crossing_interpolation testState (1 / 2)).2.2 (by decide)⟩

/-- Branch-by-branch form of `detectStep` (used both for the claim about
the interpolation arithmetic and as a rewriting tool): sign change,
no crossing, and exact zero. -/
theorem detectStep_eq (s : FMState) (fout : ℚ) :
    (((0 < truncQ fout ∧ s.previous_sample < 0) ∨
        (truncQ fout < 0 ∧ 0 < s.previous_sample)) →
      detectStep s fout =
        ({ s with
            current_interval_ns := s.current_interval_ns +
              -(s.previous_sample : ℚ) * s.nanoseconds_per_sample /
                ((truncQ fout : ℚ) - (s.previous_sample : ℚ))
            interval_remainder_ns := s.nanoseconds_per_sample -
              -(s.previous_sample : ℚ) * s.nanoseconds_per_sample /
                ((truncQ fout : ℚ) - (s.previous_sample : ℚ))
            previous_sample := truncQ fout }, true)) ∧
    (¬ ((0 < truncQ fout ∧ s.previous_sample < 0) ∨
        (truncQ fout < 0 ∧ 0 < s.previous_sample)) →
      truncQ fout ≠ 0 →
      detectStep s fout =
        ({ s with
            current_interval_ns := s.current_interval_ns + s.nanoseconds_per_sample
            previous_sample := truncQ fout }, false)) ∧
    (truncQ fout = 0 →
      detectStep s fout =
        ({ s with
            current_interval_ns := s.current_interval_ns + s.nanoseconds_per_sample
            interval_remainder_ns := 0
            previous_sample := 0 }, true)) := by
  refine ⟨?_, ?_, ?_⟩
  · intro h
    have hne : truncQ fout ≠ 0 := by
      rcases h with ⟨h1, _⟩ | ⟨h1, _⟩ <;> omega
    simp only [detectStep]
    rw [if_pos h, crossingDenom_of_opposite _ _ h, if_neg hne]
  · intro h hne
    simp only [detectStep]
    rw [if_neg h, if_neg hne]
  · intro h0
    have hno : ¬ ((0 < truncQ fout ∧ s.previous_sample < 0) ∨
        (truncQ fout < 0 ∧ 0 < s.previous_sample)) := by
      omega
    simp only [detectStep]
    rw [if_neg hno, if_pos h0, h0]

/-- Fields of the module state that `detectStep` never writes. -/
theorem detectStep_frame (s : FMState) (fout : ℚ) :
    (detectStep s fout).1.current_quasi_peak = s.current_quasi_peak ∧
    (detectStep s fout).1.peak_values_100ms = s.peak_values_100ms ∧
    (detectStep s fout).1.peak_index_100ms = s.peak_index_100ms ∧
    (detectStep s fout).1.rms_1sec_buffer_index = s.rms_1sec_buffer_index ∧
    (detectStep s fout).1.nanoseconds_per_sample = s.nanoseconds_per_sample ∧
    (detectStep s fout).1.is_first_buffer = s.is_first_buffer ∧
    (detectStep s fout).1.buffer_rms_1sec_sums = s.buffer_rms_1sec_sums ∧
    (detectStep s fout).1.interval_sum_ns = s.interval_sum_ns := by
  by_cases hopp : (0 < truncQ fout ∧ s.previous_sample < 0) ∨
      (truncQ fout < 0 ∧ 0 < s.previous_sample)
  · rw [(detectStep_eq s fout).1 hopp]
    exact ⟨rfl, rfl, rfl, rfl, rfl, rfl, rfl, rfl⟩
  · by_cases h0 : truncQ fout = 0
    · rw [(detectStep_eq s fout).2.2 h0]
      exact ⟨rfl, rfl, rfl, rfl, rfl, rfl, rfl, rfl⟩
    · rw [(detectStep_eq s fout).2.1 hopp h0]
      exact ⟨rfl, rfl, rfl, rfl, rfl, rfl, rfl, rfl⟩

/-- Fields of the module state that the weighting filters never write. -/
theorem applyWeight_frame (ft : ℤ) (s : FMState) (e : ℚ) :
    (applyWeight ft s e).1.peak_values_100ms = s.peak_values_100ms ∧
    (applyWeight ft s e).1.peak_index_100ms = s.peak_index_100ms ∧
    (applyWeight ft s e).1.rms_1sec_buffer_index = s.rms_1sec_buffer_index ∧
    (applyWeight ft s e).1.nanoseconds_per_sample = s.nanoseconds_per_sample ∧
    (applyWeight ft s e).1.buffer_rms_1sec_sums = s.buffer_rms_1sec_sums ∧
    (applyWeight ft s e).1.current_quasi_peak = s.current_quasi_peak ∧
    (applyWeight ft s e).1.interval_sum_ns = s.interval_sum_ns ∧
    (applyWeight ft s e).1.valid_sample_count = s.valid_sample_count ∧
    (applyWeight ft s e).1.current_interval_ns = s.current_interval_ns ∧
    (applyWeight ft s e).1.interval_remainder_ns = s.interval_remainder_ns := by
  unfold applyWeight
  repeat' split
  all_goals exact ⟨rfl, rfl, rfl, rfl, rfl, rfl, rfl, rfl, rfl, rfl⟩

/-- Fields of the module state that the crossing-event handler never
writes. -/
theorem crossingEvent_frame (ft : ℤ) (d : DspState) :
    (crossingEvent ft d).st.peak_values_100ms = d.st.peak_values_100ms ∧
    (crossingEvent ft d).st.peak_index_100ms = d.st.peak_index_100ms ∧
    (crossingEvent ft d).st.rms_1sec_buffer_index = d.st.rms_1sec_buffer_index ∧
    (crossingEvent ft d).st.nanoseconds_per_sample = d.st.nanoseconds_per_sample ∧
    (crossingEvent ft d).st.buffer_rms_1sec_sums = d.st.buffer_rms_1sec_sums := by
  simp only [crossingEvent]
  split
  · exact ⟨rfl, rfl, rfl, rfl, rfl⟩
  · have h := applyWeight_frame ft d.st
      ((d.st.expected_half_period_ns - d.st.current_interval_ns) / d.st.expected_half_period_ns)
    exact ⟨h.1, h.2.1, h.2.2.1, h.2.2.2.1, h.2.2.2.2.1⟩

/-- Fields of the module state that a full DSP sample step never
writes. -/
theorem dspStep_frame (ft : ℤ) (d : DspState) (x : ℤ) :
    (dspStep ft d x).st.peak_values_100ms = d.st.peak_values_100ms ∧
    (dspStep ft d x).st.peak_index_100ms = d.st.peak_index_100ms ∧
    (dspStep ft d x).st.rms_1sec_buffer_index = d.st.rms_1sec_buffer_index ∧
    (dspStep ft d x).st.buffer_rms_1sec_sums = d.st.buffer_rms_1sec_sums := by
  simp only [dspStep, detectEventStep]
  split
  · exact ⟨((crossingEvent_frame ft _).1).trans ((detectStep_frame _ _).2.1),
      ((crossingEvent_frame ft _).2.1).trans ((detectStep_frame _ _).2.2.1),
      ((crossingEvent_frame ft _).2.2.1).trans ((detectStep_frame _ _).2.2.2.1),
      ((crossingEvent_frame ft _).2.2.2.2).trans ((detectStep_frame _ _).2.2.2.2.2.2.1)⟩
  · exact ⟨(detectStep_frame _ _).2.1, (detectStep_frame _ _).2.2.1,
      (detectStep_frame _ _).2.2.2.1, (detectStep_frame _ _).2.2.2.2.2.2.1⟩

/-- Fields of the module state that the whole DSP pass over a window
never writes. -/
theorem dspFold_frame (ft : ℤ) (w : List ℤ) : ∀ (d : DspState),
    (w.foldl (dspStep ft) d).st.peak_values_100ms = d.st.peak_values_100ms ∧
    (w.foldl (dspStep ft) d).st.peak_index_100ms = d.st.peak_index_100ms ∧
    (w.foldl (dspStep ft) d).st.rms_1sec_buffer_index = d.st.rms_1sec_buffer_index ∧
    (w.foldl (dspStep ft) d).st.buffer_rms_1sec_sums = d.st.buffer_rms_1sec_sums := by
  induction w with
  | nil => intro d; exact ⟨rfl, rfl, rfl, rfl⟩
  | cons x t ih =>
    intro d
    simp only [List.foldl_cons]
    have h1 := dspStep_frame ft d x
    have h2 := ih (dspStep ft d x)
    exact ⟨h2.1.trans h1.1, h2.2.1.trans h1.2.1, h2.2.2.1.trans h1.2.2.1,
      h2.2.2.2.trans h1.2.2.2⟩

/-- After the crossing-event handler, either the window-local
`max_quasi_peak` equals the live quasi-peak scalar (an emission just
happened), or nothing relevant changed (warmup consumed the crossing). -/
theorem crossingEvent_maxqp (ft : ℤ) (d : DspState) :
    (crossingEvent ft d).max_quasi_peak = (crossingEvent ft d).st.current_quasi_peak ∨
    ((crossingEvent ft d).max_quasi_peak = d.max_quasi_peak ∧
     (crossingEvent ft d).st.current_quasi_peak = d.st.current_quasi_peak ∧
     (crossingEvent ft d).emissions = d.emissions) := by
  simp only [crossingEvent]
  split
  · right
    exact ⟨rfl, rfl, rfl⟩
  · left
    rfl

/-- One DSP sample step preserves the invariant that a nonempty emission
list forces `max_quasi_peak` to equal the live quasi-peak scalar. -/
theorem detectEventStep_maxqp (ft : ℤ) (d : DspState) (fout : ℚ)
    (hd : d.emissions ≠ [] → d.max_quasi_peak = d.st.current_quasi_peak) :
    (detectEventStep ft d fout).emissions ≠ [] →
    (detectEventStep ft d fout).max_quasi_peak =
      (detectEventStep ft d fout).st.current_quasi_peak := by
  simp only [detectEventStep]
  split
  · rcases crossingEvent_maxqp ft { d with st := (detectStep d.st fout).1 } with
      h | ⟨h1, h2, h3⟩
    · intro _
      exact h
    · intro hem
      rw [h1, h2]
      rw [h3] at hem
      exact (hd hem).trans (detectStep_frame d.st fout).1.symm
  · intro hem
    exact (hd hem).trans (detectStep_frame d.st fout).1.symm

/-- One DSP sample step preserves the same invariant. -/
theorem dspStep_maxqp (ft : ℤ) (d : DspState) (x : ℤ)
    (hd : d.emissions ≠ [] → d.max_quasi_peak = d.st.current_quasi_peak) :
    (dspStep ft d x).emissions ≠ [] →
    (dspStep ft d x).max_quasi_peak = (dspStep ft d x).st.current_quasi_peak := by
  unfold dspStep
  exact detectEventStep_maxqp ft _ _ hd

/-- The DSP pass over a window preserves the invariant that a nonempty
emission list forces `max_quasi_peak` to equal the live quasi-peak
scalar. -/
theorem dspFold_maxqp (ft : ℤ) (w : List ℤ) : ∀ (d : DspState),
    (d.emissions ≠ [] → d.max_quasi_peak = d.st.current_quasi_peak) →
    (w.foldl (dspStep ft) d).emissions ≠ [] →
    (w.foldl (dspStep ft) d).max_quasi_peak =
      (w.foldl (dspStep ft) d).st.current_quasi_peak := by
  induction w with
  | nil => intro d hd; exact hd
  | cons x t ih =>
    intro d hd
    simp only [List.foldl_cons]
    exact ih (dspStep ft d x) (dspStep_maxqp ft d x hd)

/-- The written element of a list update is read back unchanged. -/
theorem list_getD_set_self (l : List ℚ) (i : ℕ) (a : ℚ) (h : i < l.length) :
    (l.set i a).getD i 0 = a := by
  rw [List.getD_eq_getElem?_getD, List.getElem?_set_self h]
  rfl

/-- Claim C5: for a valid 100 ms block in which at least one crossing is
emitted, the value written into the block's per-100 ms peak slot equals
the quasi-peak scalar as it stands after the block's last crossing event,
which is its value at the end of the block (the scalar does not move
between the last crossing and the block end), not the maximum of the
scalar over the block. -/
theorem c5_peak_slot_is_final_qp (sqrtFn : ℚ → ℚ) (ft : ℤ) (c : CallState) (w : List ℤ)
    (hamp : ¬ (gatePass c.st.previous_sample_raw w).max_amplitude < 50)
    (hzc : ¬ ((gatePass c.st.previous_sample_raw w).zero_crossing_count <
        c.st.min_zero_crossings ∨
      (gatePass c.st.previous_sample_raw w).zero_crossing_count >
        c.st.max_zero_crossings))
    (hlen : c.st.peak_index_100ms < c.st.peak_values_100ms.length)
    (hem : (w.foldl (dspStep ft)
        (dspInit c (gatePass c.st.previous_sample_raw w).previous_raw)).emissions ≠ []) :
    (processWindow sqrtFn ft c w).st.peak_values_100ms.getD c.st.peak_index_100ms 0
      = (w.foldl (dspStep ft)
          (dspInit c (gatePass c.st.previous_sample_raw w).previous_raw)).st.current_quasi_peak := by
  have hmax := dspFold_maxqp ft w
    (dspInit c (gatePass c.st.previous_sample_raw w).previous_raw)
    (fun h => absurd rfl h) hem
  have hframe := dspFold_frame ft w
    (dspInit c (gatePass c.st.previous_sample_raw w).previous_raw)
  have hpi : (w.foldl (dspStep ft)
      (dspInit c (gatePass c.st.previous_sample_raw w).previous_raw)).st.peak_index_100ms
      = c.st.peak_index_100ms := hframe.2.1
  have hpv : (w.foldl (dspStep ft)
      (dspInit c (gatePass c.st.previous_sample_raw w).previous_raw)).st.peak_values_100ms
      = c.st.peak_values_100ms := hframe.1
  simp only [processWindow]
  rw [if_neg hamp, if_neg hzc]
  simp only [dspBlock]
  split
  · rw [← hmax]
    show ((w.foldl (dspStep ft)
        (dspInit c (gatePass c.st.previous_sample_raw w).previous_raw)).st.peak_values_100ms.set
          (w.foldl (dspStep ft)
            (dspInit c (gatePass c.st.previous_sample_raw w).previous_raw)).st.peak_index_100ms
          (w.foldl (dspStep ft)
            (dspInit c (gatePass c.st.previous_sample_raw w).previous_raw)).max_quasi_peak).getD
        c.st.peak_index_100ms 0 = _
    rw [hpi, hpv]
    exact list_getD_set_self c.st.peak_values_100ms c.st.peak_index_100ms _ hlen
  · rw [← hmax]
    show ((w.foldl (dspStep ft)
        (dspInit c (gatePass c.st.previous_sample_raw w).previous_raw)).st.peak_values_100ms.set
          (w.foldl (dspStep ft)
            (dspInit c (gatePass c.st.previous_sample_raw w).previous_raw)).st.peak_index_100ms
          (w.foldl (dspStep ft)
            (dspInit c (gatePass c.st.previous_sample_raw w).previous_raw)).max_quasi_peak).getD
        c.st.peak_index_100ms 0 = _
    rw [hpi, hpv]
    exact list_getD_set_self c.st.peak_values_100ms c.st.peak_index_100ms _ hlen

/-- Witness for c5_peak_slot_is_final_qp: after `init(10, 10)` the valid
window [100, −100] emits one crossing; the written peak slot equals the
final quasi-peak scalar. -/
theorem c5_peak_slot_is_final_qp_witness :
    (processWindow (fun q => q) 1 testCall [100, -100]).st.peak_values_100ms.getD
        testCall.st.peak_index_100ms 0
      = (([100, -100] : List ℤ).foldl (dspStep 1)
          (dspInit testCall
            (gatePass testCall.st.previous_sample_raw [100, -100]).previous_raw)).st.current_quasi_peak :=
  c5_peak_slot_is_final_qp (fun q => q) 1 testCall [100, -100]
    (by decide) (by decide) (by decide) (by decide)

/-- The branch form of the maximum scan over ℚ is the binary maximum. -/
theorem if_gt_eq_maxQ (a b : ℚ) : (if b > a then b else a) = max a b := by
  by_cases h : a < b
  · rw [if_pos h, max_eq_right h.le]
  · rw [if_neg h, max_eq_left (not_lt.mp h)]

/-- The 10-second maximum scan of flutter_meter.c is a fold of `max`. -/
theorem foldl_if_gt_eq_max (l : List ℚ) (a : ℚ) :
    l.foldl (fun b x => if x > b then x else b) a = l.foldl max a := by
  induction l generalizing a with
  | nil => rfl
  | cons x t ih =>
    simp only [List.foldl_cons]
    rw [if_gt_eq_maxQ, ih]

/-- The accumulator loop over the ten 1-second sums computes the list
sum. -/
theorem foldl_add_eq (l : List ℚ) : l.foldl (fun a x => a + x) 0 = l.sum := by
  suffices h : ∀ (a : ℚ), l.foldl (fun a x => a + x) a = a + l.sum by
    rw [h 0, zero_add]
  induction l with
  | nil => intro a; simp
  | cons x t ih =>
    intro a
    simp only [List.foldl_cons, List.sum_cons]
    rw [ih, add_assoc]

/-- The start value bounds a fold of `max` from below. -/
theorem le_foldl_max_init (l : List ℚ) : ∀ (a : ℚ), a ≤ l.foldl max a := by
  induction l with
  | nil => intro a; exact le_refl a
  | cons x t ih =>
    intro a
    simp only [List.foldl_cons]
    exact le_trans (le_max_left a x) (ih (max a x))

/-- Every member bounds a fold of `max` from below. -/
theorem le_foldl_max_mem (l : List ℚ) : ∀ (a x : ℚ), x ∈ l → x ≤ l.foldl max a := by
  induction l with
  | nil => intro a x hx; cases hx
  | cons y t ih =>
    intro a x hx
    simp only [List.foldl_cons]
    rcases List.mem_cons.mp hx with h | h
    · subst h
      exact le_trans (le_max_right a x) (le_foldl_max_init t (max a x))
    · exact ih (max a y) x h

/-- A fold of `max` is a member of the list or the start value. -/
theorem foldl_max_mem_or (l : List ℚ) : ∀ (a : ℚ), l.foldl max a ∈ l ∨ l.foldl max a = a := by
  induction l with
  | nil => intro a; exact Or.inr rfl
  | cons x t ih =>
    intro a
    simp only [List.foldl_cons]
    rcases ih (max a x) with h | h
    · exact Or.inl (List.mem_cons_of_mem x h)
    · rcases le_total a x with hax | hax
      · exact Or.inl (by rw [h, max_eq_right hax]; exact List.mem_cons_self x t)
      · exact Or.inr (by rw [h, max_eq_left hax])

/-- Claim C6: at a 1-second boundary (the tenth valid block of the
cycle), `rms_percent = sqrt(sum of the ten per-100 ms sums of squares /
valid_count) × 100` is stored into the 50-slot max-RMS ring at the
post-incremented value of the same index used for the per-100 ms peak
writes; the published rms and quasi-peak results are the maxima over the
50 slots of the max-RMS ring and of the peak ring; the quasi-peak scalar,
the two 50-slot rings and their shared index are not reset, while
`valid_sample_count`, the 1-second index and `interval_sum_ns` are reset
to zero. -/
theorem c6_one_second_boundary (sqrtFn : ℚ → ℚ) (ft : ℤ) (c : CallState) (w : List ℤ)
    (D : DspState) (pidx : ℕ) (rmsv : ℚ)
    (hD : D = w.foldl (dspStep ft)
      (dspInit c (gatePass c.st.previous_sample_raw w).previous_raw))
    (hamp : ¬ (gatePass c.st.previous_sample_raw w).max_amplitude < 50)
    (hzc : ¬ ((gatePass c.st.previous_sample_raw w).zero_crossing_count <
        c.st.min_zero_crossings ∨
      (gatePass c.st.previous_sample_raw w).zero_crossing_count >
        c.st.max_zero_crossings))
    (hridx : c.st.rms_1sec_buffer_index = 9)
    (hpidx : pidx = if c.st.peak_index_100ms + 1 = 50 then 0 else c.st.peak_index_100ms + 1)
    (hrmsv : rmsv = sqrtFn ((D.st.buffer_rms_1sec_sums.set 9 D.sum_of_squares).sum /
      (D.st.valid_sample_count : ℚ)) * 100) :
    (processWindow sqrtFn ft c w).st.max_rms_array = D.st.max_rms_array.set pidx rmsv ∧
    (processWindow sqrtFn ft c w).st.result_rms_percent
      = (D.st.max_rms_array.set pidx rmsv).foldl max 0 ∧
    (processWindow sqrtFn ft c w).st.result_quasi_peak
      = (D.st.peak_values_100ms.set c.st.peak_index_100ms D.max_quasi_peak).foldl max 0 ∧
    (∀ x ∈ D.st.max_rms_array.set pidx rmsv,
      x ≤ (processWindow sqrtFn ft c w).st.result_rms_percent) ∧
    ((processWindow sqrtFn ft c w).st.result_rms_percent
        ∈ D.st.max_rms_array.set pidx rmsv ∨
      (processWindow sqrtFn ft c w).st.result_rms_percent = 0) ∧
    (∀ x ∈ D.st.peak_values_100ms.set c.st.peak_index_100ms D.max_quasi_peak,
      x ≤ (processWindow sqrtFn ft c w).st.result_quasi_peak) ∧
    ((processWindow sqrtFn ft c w).st.result_quasi_peak
        ∈ D.st.peak_values_100ms.set c.st.peak_index_100ms D.max_quasi_peak ∨
      (processWindow sqrtFn ft c w).st.result_quasi_peak = 0) ∧
    (processWindow sqrtFn ft c w).st.current_quasi_peak = D.st.current_quasi_peak ∧
    (processWindow sqrtFn ft c w).st.peak_values_100ms
      = D.st.peak_values_100ms.set c.st.peak_index_100ms D.max_quasi_peak ∧
    (processWindow sqrtFn ft c w).st.peak_index_100ms = pidx ∧
    (processWindow sqrtFn ft c w).st.valid_sample_count = 0 ∧
    (processWindow sqrtFn ft c w).st.rms_1sec_buffer_index = 0 ∧
    (processWindow sqrtFn ft c w).st.interval_sum_ns = 0 := by
  subst hD
  subst hpidx
  subst hrmsv
  have hfr := dspFold_frame ft w
    (dspInit c (gatePass c.st.previous_sample_raw w).previous_raw)
  have h9 : (w.foldl (dspStep ft)
      (dspInit c (gatePass c.st.previous_sample_raw w).previous_raw)).st.rms_1sec_buffer_index
      = 9 := hfr.2.2.1.trans hridx
  have hpi : (w.foldl (dspStep ft)
      (dspInit c (gatePass c.st.previous_sample_raw w).previous_raw)).st.peak_index_100ms
      = c.st.peak_index_100ms := hfr.2.1
  have h10 : (w.foldl (dspStep ft)
      (dspInit c (gatePass c.st.previous_sample_raw w).previous_raw)).st.rms_1sec_buffer_index
      + 1 = 10 := by rw [h9]
  simp only [processWindow]
  rw [if_neg hamp, if_neg hzc]
  simp only [dspBlock]
  rw [if_pos h10, h9, hpi, foldl_add_eq, foldl_if_gt_eq_max, foldl_if_gt_eq_max]
  refine ⟨rfl, rfl, rfl, ?_, ?_, ?_, ?_, rfl, rfl, rfl, rfl, rfl, rfl⟩
  · intro x hx
    exact le_foldl_max_mem _ 0 x hx
  · exact foldl_max_mem_or _ 0
  · intro x hx
    exact le_foldl_max_mem _ 0 x hx
  · exact foldl_max_mem_or _ 0


/-- Witness for c6_one_second_boundary at the fixture `test9` with the
valid window [100, −100]. -/
theorem c6_one_second_boundary_witness :
    (processWindow (fun q => q) 1 test9 [100, -100]).st.max_rms_array
      = test9D.st.max_rms_array.set test9pidx test9rmsv ∧
    (processWindow (fun q => q) 1 test9 [100, -100]).st.result_rms_percent
      = (test9D.st.max_rms_array.set test9pidx test9rmsv).foldl max 0 ∧
    (processWindow (fun q => q) 1 test9 [100, -100]).st.result_quasi_peak
      = (test9D.st.peak_values_100ms.set test9.st.peak_index_100ms
          test9D.max_quasi_peak).foldl max 0 ∧
    (∀ x ∈ test9D.st.max_rms_array.set test9pidx test9rmsv,
      x ≤ (processWindow (fun q => q) 1 test9 [100, -100]).st.result_rms_percent) ∧
    ((processWindow (fun q => q) 1 test9 [100, -100]).st.result_rms_percent
        ∈ test9D.st.max_rms_array.set test9pidx test9rmsv ∨
      (processWindow (fun q => q) 1 test9 [100, -100]).st.result_rms_percent = 0) ∧
    (∀ x ∈ test9D.st.peak_values_100ms.set test9.st.peak_index_100ms test9D.max_quasi_peak,
      x ≤ (processWindow (fun q => q) 1 test9 [100, -100]).st.result_quasi_peak) ∧
    ((processWindow (fun q => q) 1 test9 [100, -100]).st.result_quasi_peak
        ∈ test9D.st.peak_values_100ms.set test9.st.peak_index_100ms test9D.max_quasi_peak ∨
      (processWindow (fun q => q) 1 test9 [100, -100]).st.result_quasi_peak = 0) ∧
    (processWindow (fun q => q) 1 test9 [100, -100]).st.current_quasi_peak
      = test9D.st.current_quasi_peak ∧
    (processWindow (fun q => q) 1 test9 [100, -100]).st.peak_values_100ms
      = test9D.st.peak_values_100ms.set test9.st.peak_index_100ms test9D.max_quasi_peak ∧
    (processWindow (fun q => q) 1 test9 [100, -100]).st.peak_index_100ms = test9pidx ∧
    (processWindow (fun q => q) 1 test9 [100, -100]).st.valid_sample_count = 0 ∧
    (processWindow (fun q => q) 1 test9 [100, -100]).st.rms_1sec_buffer_index = 0 ∧
    (processWindow (fun q => q) 1 test9 [100, -100]).st.interval_sum_ns = 0 :=
  c6_one_second_boundary (fun q => q) 1 test9 [100, -100] test9D test9pidx test9rmsv
    rfl (by decide) (by decide) rfl rfl rfl

/-- The gate sees no amplitude in an all-zero window. -/
theorem gatePass_zero_amp (previous_raw : ℤ) (m : ℕ) :
    (gatePass previous_raw (List.replicate m 0)).max_amplitude = 0 := by
  have hts : toShort 0 = 0 := by decide
  suffices h : ∀ (m : ℕ) (g : GateOut), g.max_amplitude = 0 →
      ((List.replicate m (0 : ℤ)).foldl gateStep g).max_amplitude = 0 from
    h m _ rfl
  intro m
  induction m with
  | zero => intro g hg; exact hg
  | succ k ih =>
    intro g hg
    rw [List.replicate_succ, List.foldl_cons]
    refine ih _ ?_
    simp only [gateStep, hts, hg]
    rfl

/-- An all-zero window is rejected by the amplitude check: only the
gate's raw-sample memory changes. -/
theorem processWindow_zero (sqrtFn : ℚ → ℚ) (ft : ℤ) (c : CallState) (m : ℕ) :
    processWindow sqrtFn ft c (List.replicate m 0)
      = { c with st := { c.st with previous_sample_raw :=
          (gatePass c.st.previous_sample_raw (List.replicate m 0)).previous_raw } } := by
  have hamp : (gatePass c.st.previous_sample_raw (List.replicate m 0)).max_amplitude < 50 := by
    rw [gatePass_zero_amp]
    norm_num
  simp only [processWindow]
  rw [if_pos hamp]

/-- A run of windows that are all rejected as silence changes nothing but
the gate's raw-sample memory. -/
theorem fold_zero_windows (sqrtFn : ℚ → ℚ) (ft : ℤ) (wOf : ℕ → List ℤ) :
    ∀ (ks : List ℕ), (∀ k ∈ ks, ∃ m, wOf k = List.replicate m 0) →
    ∀ (c : CallState), ∃ p,
      (ks.foldl (fun c k => processWindow sqrtFn ft c (wOf k)) c)
        = { c with st := { c.st with previous_sample_raw := p } } := by
  intro ks
  induction ks with
  | nil =>
    intro _ c
    exact ⟨c.st.previous_sample_raw, rfl⟩
  | cons k t ih =>
    intro h c
    simp only [List.foldl_cons]
    obtain ⟨m, hm⟩ := h k (List.mem_cons_self k t)
    rw [hm, processWindow_zero]
    obtain ⟨p, hp⟩ := ih (fun j hj => h j (List.mem_cons_of_mem k hj)) _
    exact ⟨p, hp⟩

/-- Claim C7: after `flutterMeter_init`, processing 10 seconds of
all-zero samples (`num_samples = 100 × samples_per_100ms`) returns 0 from
`process_samples`, and `get_results` yields quasi-peak 0, rms 0 and
frequency 0.  In this exact-arithmetic model no division is evaluated on
this path, so no NaN can arise. -/
theorem c7_silence_is_zero (sqrtFn : ℚ → ℚ) (sample_rate : ℤ) (test_frequency : ℚ)
    (ft : ℤ) (s : FMState) :
    (process_samples sqrtFn (flutterMeter_init sample_rate test_frequency s)
      (List.replicate ((flutterMeter_init sample_rate test_frequency s).samples_per_100ms
          * 100).toNat 0)
      ((flutterMeter_init sample_rate test_frequency s).samples_per_100ms * 100) ft).1 = 0 ∧
    get_results (process_samples sqrtFn (flutterMeter_init sample_rate test_frequency s)
      (List.replicate ((flutterMeter_init sample_rate test_frequency s).samples_per_100ms
          * 100).toNat 0)
      ((flutterMeter_init sample_rate test_frequency s).samples_per_100ms * 100) ft).2
      = (0, 0, 0) := by
  have hlt : ¬ ((flutterMeter_init sample_rate test_frequency s).samples_per_100ms * 100 <
      (flutterMeter_init sample_rate test_frequency s).samples_per_100ms * 100) :=
    lt_irrefl _
  have hwin : ∀ k ∈ List.range 100, ∃ m,
      windowOf (List.replicate ((flutterMeter_init sample_rate test_frequency s).samples_per_100ms
          * 100).toNat 0)
        (flutterMeter_init sample_rate test_frequency s).samples_per_100ms.toNat k
        = List.replicate m 0 := by
    intro k _
    unfold windowOf
    rw [List.drop_replicate, List.take_replicate]
    exact ⟨_, rfl⟩
  obtain ⟨p, hp⟩ := fold_zero_windows sqrtFn ft _ (List.range 100) hwin
    { st := flutterMeter_init sample_rate test_frequency s,
      freq_sum_5sec := 0, freq_count_5sec := 0 }
  constructor
  · simp only [process_samples]
    rw [if_neg hlt]
  · simp only [process_samples]
    rw [if_neg hlt]
    show get_results
      ((List.range 100).foldl
        (fun c k => processWindow sqrtFn ft c
          (windowOf
            (List.replicate ((flutterMeter_init sample_rate test_frequency s).samples_per_100ms
                * 100).toNat 0)
            (flutterMeter_init sample_rate test_frequency s).samples_per_100ms.toNat k))
        { st := flutterMeter_init sample_rate test_frequency s,
          freq_sum_5sec := 0, freq_count_5sec := 0 }).st = (0, 0, 0)
    rw [hp]
    rfl

/-- Claim C8: `flutterMeter_init` resets the filter buffers, the crossing
state, the interval accumulators, the window rings and the published
results, but leaves the static `previous_sample_raw` of `process_samples`
unchanged.  Consequently a re-initialized session is not guaranteed to
behave like a fresh one on identical input: with `init(10, 10)`, first
processing 10 s of −100 samples (all blocks gated out, but the raw-sample
memory becomes −100) and re-initializing makes the first block of a
subsequent all-+100 buffer count one zero-crossing and pass the gate
(advancing the peak index to 1), while the fresh session counts none and
gates every block out (peak index stays 0). -/
theorem c8_reinit_keeps_previous_raw :
    (∀ (sample_rate : ℤ) (test_frequency : ℚ) (s : FMState),
      (flutterMeter_init sample_rate test_frequency s).previous_sample_raw
          = s.previous_sample_raw ∧
      (flutterMeter_init sample_rate test_frequency s).buf2nd_order = List.replicate 4 0 ∧
      (flutterMeter_init sample_rate test_frequency s).buf_din = List.replicate 8 0 ∧
      (flutterMeter_init sample_rate test_frequency s).buf_unw = List.replicate 8 0 ∧
      (flutterMeter_init sample_rate test_frequency s).buf_wow = List.replicate 8 0 ∧
      (flutterMeter_init sample_rate test_frequency s).buf_flutter = List.replicate 8 0 ∧
      (flutterMeter_init sample_rate test_frequency s).previous_sample = 0 ∧
      (flutterMeter_init sample_rate test_frequency s).current_interval_ns = 0 ∧
      (flutterMeter_init sample_rate test_frequency s).interval_remainder_ns = 0 ∧
      (flutterMeter_init sample_rate test_frequency s).interval_sum_ns = 0 ∧
      (flutterMeter_init sample_rate test_frequency s).current_quasi_peak = 0 ∧
      (flutterMeter_init sample_rate test_frequency s).is_first_buffer = true ∧
      (flutterMeter_init sample_rate test_frequency s).buffer_rms_1sec_sums
          = List.replicate 10 0 ∧
      (flutterMeter_init sample_rate test_frequency s).peak_values_100ms
          = List.replicate 50 0 ∧
      (flutterMeter_init sample_rate test_frequency s).max_rms_array = List.replicate 50 0 ∧
      (flutterMeter_init sample_rate test_frequency s).peak_index_100ms = 0 ∧
      (flutterMeter_init sample_rate test_frequency s).rms_1sec_buffer_index = 0 ∧
      (flutterMeter_init sample_rate test_frequency s).result_rms_percent = 0 ∧
      (flutterMeter_init sample_rate test_frequency s).result_quasi_peak = 0 ∧
      (flutterMeter_init sample_rate test_frequency s).result_frequency_hz = 0) ∧
    (flutterMeter_init 10 10
        (process_samples (fun q => q) (flutterMeter_init 10 10 initialState)
          (List.replicate 100 (-100)) 100 1).2).previous_sample_raw = -100 ∧
    (gatePass (-100) [(100 : ℤ)]).zero_crossing_count = 1 ∧
    (gatePass 0 [(100 : ℤ)]).zero_crossing_count = 0 ∧
    (process_samples (fun q => q)
        (flutterMeter_init 10 10
          (process_samples (fun q => q) (flutterMeter_init 10 10 initialState)
            (List.replicate 100 (-100)) 100 1).2)
        (List.replicate 100 100) 100 1).2.peak_index_100ms = 1 ∧
    (process_samples (fun q => q) (flutterMeter_init 10 10 initialState)
        (List.replicate 100 100) 100 1).2.peak_index_100ms = 0 :=
  ⟨fun _ _ _ =>
    ⟨rfl, rfl, rfl, rfl, rfl, rfl, rfl, rfl, rfl, rfl, rfl, rfl, rfl, rfl, rfl, rfl,
     rfl, rfl, rfl, rfl⟩,
   by decide, by decide, by decide, by decide, by decide⟩

/-- The interval accumulated by `detectStep` grows by exactly the
elapsed-time increment `spanInc` (offset on a crossing, a full sample
period otherwise). -/
theorem detectStep_interval (s : FMState) (fout : ℚ) :
    (detectStep s fout).1.current_interval_ns
      = s.current_interval_ns + spanInc s.nanoseconds_per_sample s.previous_sample fout := by
  by_cases hopp : (0 < truncQ fout ∧ s.previous_sample < 0) ∨
      (truncQ fout < 0 ∧ 0 < s.previous_sample)
  · rw [(detectStep_eq s fout).1 hopp]
    simp only [spanInc]
    rw [if_pos hopp, crossingDenom_of_opposite _ _ hopp]
  · by_cases h0 : truncQ fout = 0
    · rw [(detectStep_eq s fout).2.2 h0]
      simp only [spanInc]
      rw [if_neg hopp]
    · rw [(detectStep_eq s fout).2.1 hopp h0]
      simp only [spanInc]
      rw [if_neg hopp]

/-- After `detectStep` the remembered previous sample is the truncated
isolator output. -/
theorem detectStep_prev (s : FMState) (fout : ℚ) :
    (detectStep s fout).1.previous_sample = truncQ fout := by
  by_cases hopp : (0 < truncQ fout ∧ s.previous_sample < 0) ∨
      (truncQ fout < 0 ∧ 0 < s.previous_sample)
  · rw [(detectStep_eq s fout).1 hopp]
  · by_cases h0 : truncQ fout = 0
    · rw [(detectStep_eq s fout).2.2 h0]
      exact h0.symm
    · rw [(detectStep_eq s fout).2.1 hopp h0]

/-- The warmup branch of the crossing-event handler: it only clears
`valid_sample_count` and the warmup flag. -/
theorem crossingEvent_warmup (ft : ℤ) (d : DspState) (h : d.st.is_first_buffer = true) :
    crossingEvent ft d
      = { d with st := { d.st with valid_sample_count := 0, is_first_buffer := false } } := by
  simp only [crossingEvent]
  rw [if_pos h]

/-- The emitting branch of the crossing-event handler appends the
accumulated interval to the emission record. -/
theorem crossingEvent_emit (ft : ℤ) (d : DspState) (h : d.st.is_first_buffer = false) :
    (crossingEvent ft d).emissions = d.emissions ++ [d.st.current_interval_ns] := by
  simp only [crossingEvent]
  rw [if_neg (by rw [h]; exact Bool.false_ne_true)]
  rw [(applyWeight_frame ft d.st
    ((d.st.expected_half_period_ns - d.st.current_interval_ns) /
      d.st.expected_half_period_ns)).2.2.2.2.2.2.2.2.1]

/-- A sample without crossing only installs the detector state. -/
theorem detectEventStep_no_cross (ft : ℤ) (d : DspState) (f : ℚ)
    (h : (detectStep d.st f).2 = false) :
    detectEventStep ft d f = { d with st := (detectStep d.st f).1 } := by
  simp only [detectEventStep]
  rw [if_neg (by rw [h]; exact Bool.false_ne_true)]

/-- A sample with crossing hands the installed detector state to the
crossing-event handler. -/
theorem detectEventStep_cross (ft : ℤ) (d : DspState) (f : ℚ)
    (h : (detectStep d.st f).2 = true) :
    detectEventStep ft d f = crossingEvent ft { d with st := (detectStep d.st f).1 } := by
  simp only [detectEventStep]
  rw [if_pos h]

/-- Each sample appends zero or one emission. -/
theorem detectEventStep_emissions (ft : ℤ) (d : DspState) (f : ℚ) :
    (detectEventStep ft d f).emissions = d.emissions ∨
    (detectEventStep ft d f).emissions
      = d.emissions ++ [(detectStep d.st f).1.current_interval_ns] := by
  cases hc : (detectStep d.st f).2
  · rw [detectEventStep_no_cross ft d f hc]
    exact Or.inl rfl
  · rw [detectEventStep_cross ft d f hc]
    cases hw : (detectStep d.st f).1.is_first_buffer
    · rw [crossingEvent_emit _ _ hw]
      exact Or.inr rfl
    · rw [crossingEvent_warmup _ _ hw]
      exact Or.inl rfl

/-- Emissions only accumulate along a run. -/
theorem fold_emissions_mono (ft : ℤ) : ∀ (fs : List ℚ) (d : DspState),
    ∃ l, (fs.foldl (detectEventStep ft) d).emissions = d.emissions ++ l := by
  intro fs
  induction fs with
  | nil => intro d; exact ⟨[], (List.append_nil _).symm⟩
  | cons f t ih =>
    intro d
    simp only [List.foldl_cons]
    obtain ⟨l, hl⟩ := ih (detectEventStep ft d f)
    rcases detectEventStep_emissions ft d f with h | h
    · exact ⟨l, by rw [hl, h]⟩
    · exact ⟨[(detectStep d.st f).1.current_interval_ns] ++ l,
        by rw [hl, h, List.append_assoc]⟩

/-- The elapsed-time accumulator is affine in its start value. -/
theorem spanFold_shift (n : ℚ) : ∀ (fs : List ℚ) (p : ℤ) (a : ℚ),
    (fs.foldl (spanStep n) (p, a)).1 = (fs.foldl (spanStep n) (p, 0)).1 ∧
    (fs.foldl (spanStep n) (p, a)).2 = a + (fs.foldl (spanStep n) (p, 0)).2 := by
  intro fs
  induction fs with
  | nil => intro p a; exact ⟨rfl, (add_zero a).symm⟩
  | cons f t ih =>
    intro p a
    simp only [List.foldl_cons, spanStep]
    obtain ⟨iha1, iha2⟩ := ih (truncQ f) (a + spanInc n p f)
    obtain ⟨ihb1, ihb2⟩ := ih (truncQ f) (0 + spanInc n p f)
    constructor
    · rw [iha1, ihb1]
    · rw [iha2, ihb2]
      ring

/-- While no interval has been emitted, the detector's accumulating
interval equals its starting value plus the total elapsed time, its
remembered previous sample tracks the elapsed-time accumulator, and the
sample period is unchanged. -/
theorem detect_run_no_emit (ft : ℤ) : ∀ (fs : List ℚ) (d : DspState),
    (fs.foldl (detectEventStep ft) d).emissions = d.emissions →
    ((fs.foldl (detectEventStep ft) d).st.current_interval_ns
        = d.st.current_interval_ns
          + spanRun d.st.nanoseconds_per_sample d.st.previous_sample fs ∧
      (fs.foldl (detectEventStep ft) d).st.previous_sample
        = (fs.foldl (spanStep d.st.nanoseconds_per_sample)
            (d.st.previous_sample, 0)).1 ∧
      (fs.foldl (detectEventStep ft) d).st.nanoseconds_per_sample
        = d.st.nanoseconds_per_sample) := by
  intro fs
  induction fs with
  | nil =>
    intro d _
    refine ⟨?_, rfl, rfl⟩
    rw [spanRun]
    simp
  | cons f t ih =>
    intro d hem
    simp only [List.foldl_cons] at hem ⊢
    obtain ⟨l, hl⟩ := fold_emissions_mono ft t (detectEventStep ft d f)
    have hstep : (detectEventStep ft d f).emissions = d.emissions := by
      rcases detectEventStep_emissions ft d f with h | h
      · exact h
      · exfalso
        rw [hl, h, List.append_assoc] at hem
        have hlen := congrArg List.length hem
        simp [List.length_append] at hlen
    have hset : detectEventStep ft d f = { d with st := (detectStep d.st f).1 } ∨
        detectEventStep ft d f =
          { d with st := { (detectStep d.st f).1 with
              valid_sample_count := 0, is_first_buffer := false } } := by
      cases hc : (detectStep d.st f).2
      · exact Or.inl (detectEventStep_no_cross ft d f hc)
      · cases hw : (detectStep d.st f).1.is_first_buffer
        · exfalso
          rw [detectEventStep_cross ft d f hc, crossingEvent_emit _ _ hw] at hstep
          have hlen := congrArg List.length hstep
          simp [List.length_append] at hlen
        · rw [detectEventStep_cross ft d f hc, crossingEvent_warmup _ _ hw]
          exact Or.inr rfl
    have hnsps : (detectEventStep ft d f).st.nanoseconds_per_sample
        = d.st.nanoseconds_per_sample := by
      rcases hset with h | h <;> rw [h] <;> exact (detectStep_frame d.st f).2.2.2.2.1
    have hint : (detectEventStep ft d f).st.current_interval_ns
        = d.st.current_interval_ns
          + spanInc d.st.nanoseconds_per_sample d.st.previous_sample f := by
      rcases hset with h | h <;> rw [h] <;> exact detectStep_interval d.st f
    have hprev : (detectEventStep ft d f).st.previous_sample = truncQ f := by
      rcases hset with h | h <;> rw [h] <;> exact detectStep_prev d.st f
    obtain ⟨ih1, ih2, ih3⟩ := ih (detectEventStep ft d f) (hem.trans hstep.symm)
    refine ⟨?_, ?_, ih3.trans hnsps⟩
    · rw [ih1, hint, hnsps, hprev]
      rw [spanRun, spanRun, List.foldl_cons]
      have hsh := (spanFold_shift d.st.nanoseconds_per_sample t (truncQ f)
        (0 + spanInc d.st.nanoseconds_per_sample d.st.previous_sample f)).2
      simp only [spanStep]
      rw [hsh]
      ring
    · rw [ih2, hnsps, hprev]
      have hsh := (spanFold_shift d.st.nanoseconds_per_sample t (truncQ f)
        (0 + spanInc d.st.nanoseconds_per_sample d.st.previous_sample f)).1
      simp only [spanStep]
      rw [hsh]

/-- Claim C9: while the warmup flag is set, a crossing is consumed
without emitting and without the handover of the interval accumulator
(`current_interval_ns` keeps the detector's accumulated value instead of
being set to `interval_remainder_ns`, and `interval_sum_ns` is
untouched); consequently, starting a session (warmup set, interval
accumulator zero), if the samples `pre` produce no emission and the next
sample `x` produces the first emission (the second crossing of the
session), the emitted interval is the whole elapsed time from the first
processed sample of the session through that crossing — `spanRun` over
`pre ++ [x]` — not the time between the first and second crossings. -/
theorem c9_warmup_skips_handover (ft : ℤ) (d : DspState) (pre : List ℚ) (x : ℚ)
    (_hw : d.st.is_first_buffer = true)
    (hem0 : d.emissions = [])
    (hcur : d.st.current_interval_ns = 0)
    (hpre : (pre.foldl (detectEventStep ft) d).emissions = [])
    (hx : ((pre ++ [x]).foldl (detectEventStep ft) d).emissions ≠ []) :
    ((pre ++ [x]).foldl (detectEventStep ft) d).emissions
      = [spanRun d.st.nanoseconds_per_sample d.st.previous_sample (pre ++ [x])] ∧
    (∀ (d2 : DspState) (f2 : ℚ), d2.st.is_first_buffer = true →
      (detectEventStep ft d2 f2).emissions = d2.emissions ∧
      (detectEventStep ft d2 f2).st.interval_sum_ns = d2.st.interval_sum_ns ∧
      (detectEventStep ft d2 f2).st.current_interval_ns
        = (detectStep d2.st f2).1.current_interval_ns ∧
      ((detectStep d2.st f2).2 = true →
        (detectEventStep ft d2 f2).st.is_first_buffer = false)) := by
  constructor
  · rw [List.foldl_append, List.foldl_cons, List.foldl_nil] at hx ⊢
    have hinv := detect_run_no_emit ft pre d (by rw [hem0]; exact hpre)
    obtain ⟨h1, h2, h3⟩ := hinv
    cases hc : (detectStep (pre.foldl (detectEventStep ft) d).st x).2
    · exfalso
      rw [detectEventStep_no_cross ft _ x hc] at hx
      exact hx hpre
    · cases hwP : (detectStep (pre.foldl (detectEventStep ft) d).st x).1.is_first_buffer
      · rw [detectEventStep_cross ft _ x hc, crossingEvent_emit _ _ hwP]
        show (pre.foldl (detectEventStep ft) d).emissions ++
            [(detectStep (pre.foldl (detectEventStep ft) d).st x).1.current_interval_ns] = _
        rw [hpre, List.nil_append, detectStep_interval, h1, h2, h3, hcur]
        rw [spanRun, spanRun, List.foldl_append, List.foldl_cons, List.foldl_nil]
        simp only [spanStep]
        congr 1
        ring
      · exfalso
        rw [detectEventStep_cross ft _ x hc, crossingEvent_warmup _ _ hwP] at hx
        exact hx hpre
  · intro d2 f2 hw2
    cases hc : (detectStep d2.st f2).2
    · rw [detectEventStep_no_cross ft d2 f2 hc]
      refine ⟨rfl, (detectStep_frame d2.st f2).2.2.2.2.2.2.2, rfl, ?_⟩
      intro habs
      exact absurd habs Bool.false_ne_true
    · have hwr : (detectStep d2.st f2).1.is_first_buffer = true :=
        ((detectStep_frame d2.st f2).2.2.2.2.2.1).trans hw2
      rw [detectEventStep_cross ft d2 f2 hc, crossingEvent_warmup _ _ hwr]
      exact ⟨rfl, (detectStep_frame d2.st f2).2.2.2.2.2.2.2, rfl, fun _ => rfl⟩

/-- Witness for c9_warmup_skips_handover: from the freshly initialized
session (warmup set, accumulator zero), outputs 5/2 then −7/2 consume the
warmup crossing without emission, and 21/5 emits the whole span from the
first sample. -/
theorem c9_warmup_skips_handover_witness :
    ((([(5 : ℚ) / 2, -(7 / 2)] ++ [(21 : ℚ) / 5]).foldl (detectEventStep 1)
        (dspInit testCall 0)).emissions
      = [spanRun (dspInit testCall 0).st.nanoseconds_per_sample
          (dspInit testCall 0).st.previous_sample
          ([(5 : ℚ) / 2, -(7 / 2)] ++ [(21 : ℚ) / 5])]) ∧
    (∀ (d2 : DspState) (f2 : ℚ), d2.st.is_first_buffer = true →
      (detectEventStep 1 d2 f2).emissions = d2.emissions ∧
      (detectEventStep 1 d2 f2).st.interval_sum_ns = d2.st.interval_sum_ns ∧
      (detectEventStep 1 d2 f2).st.current_interval_ns
        = (detectStep d2.st f2).1.current_interval_ns ∧
      ((detectStep d2.st f2).2 = true →
        (detectEventStep 1 d2 f2).st.is_first_buffer = false)) :=
  c9_warmup_skips_handover 1 (dspInit testCall 0) [(5 : ℚ) / 2, -(7 / 2)] ((21 : ℚ) / 5)
    rfl rfl rfl (by decide) (by decide)

end ClaimProofs
